import Mathlib

/-!
# oibot / roomba: byte packing, opcode framing and raw read passthrough

A shallow embedding of `roomba.go` (and of its duplicate `src/roomba/serial.go`,
whose function bodies are the same): `Pack`, `Roomba.Open`, `Roomba.Write`,
`Roomba.WriteByte` and `Roomba.Read`.

Conventions

* a Go `byte` is a `Nat`; every byte the code produces is reduced `% 256`;
* a Go `int` count reported by the transport is an `Int` (a transport may
  report any count, also a negative or an excessive one);
* a Go `error` is `Option GoError`, `none` being `nil`;
* the `io.ReadWriter` held in `Roomba.S` is a state of type `σ` together with a
  `Transport σ` that says how the stream answers each `Write` and `Read` call;
* every method returns an `Outcome`: the returned value (or the nil-stream
  fault), the handle after the call and the ordered trace of the effects issued.
-/

namespace roomba

/-! ## Values handed to `Pack` and `encoding/binary` -/

/-- A Go error value, identified by its message. -/
abbrev GoError := String

/-- An element of the `[]interface{}` handed to `Pack`, tagged with its dynamic
type. Integer payloads are arbitrary `Nat`/`Int`; the encoder reduces them to
the width of the type. Floats and complex numbers carry the IEEE-754 bit
patterns of their parts.

* `composite typeName leaves` is a slice, an array, a struct, or a pointer to
  a value: `leaves` are its scalar elements in encoding order (nested arrays
  and structs flattened); a leaf that is not a scalar stands for a part that
  `encoding/binary` cannot size (a `string` field, a slice or pointer inside a
  struct, an `int` element, ...).
* `unsized typeName` is a value of any other type without a fixed encoded size
  (`int`, `uint`, `string`, a map, an empty slice of such, ...).
* `nil` is the nil interface value.

Typed nil pointers are not modelled. -/
inductive Value where
  | uint8 (v : Nat)
  | uint16 (v : Nat)
  | uint32 (v : Nat)
  | uint64 (v : Nat)
  | int8 (v : Int)
  | int16 (v : Int)
  | int32 (v : Int)
  | int64 (v : Int)
  | bool (b : Bool)
  | float32 (bits : Nat)
  | float64 (bits : Nat)
  | complex64 (re im : Nat)
  | complex128 (re im : Nat)
  | composite (typeName : String) (leaves : List Value)
  | unsized (typeName : String)
  | nil

/-- Conversion `byte(v)` of an unsigned integer. -/
def toByte (v : Nat) : Nat := v % 256

/-- Conversion `uintN(v)` of a signed integer to the unsigned type of `bits` bits. -/
def toUint (bits : Nat) (v : Int) : Nat := (v % (2 ^ bits : Int)).toNat

/-- Go `binary.BigEndian.PutUint16`: `b[0] = byte(v >> 8); b[1] = byte(v)`. -/
def putUint16 (v : Nat) : List Nat :=
  [toByte (v >>> 8), toByte v]

/-- Go `binary.BigEndian.PutUint32`: four bytes, `byte(v >> 24)` first. -/
def putUint32 (v : Nat) : List Nat :=
  [toByte (v >>> 24), toByte (v >>> 16), toByte (v >>> 8), toByte v]

/-- Go `binary.BigEndian.PutUint64`: eight bytes, `byte(v >> 56)` first. -/
def putUint64 (v : Nat) : List Nat :=
  [toByte (v >>> 56), toByte (v >>> 48), toByte (v >>> 40), toByte (v >>> 32),
   toByte (v >>> 24), toByte (v >>> 16), toByte (v >>> 8), toByte v]

/-- How a call of `binary.Write` ends: it appended `bs` and returned `nil`, it
returned an error (nothing appended), or it panicked. -/
inductive WriteOutcome where
  | ok (bs : List Nat)
  | error (err : GoError)
  | panic (msg : String)
  deriving Repr, DecidableEq

/-- The bytes the reflection encoder of `encoding/binary` writes for one scalar
element of a slice, array or struct (integers, `bool`, floats, complex
numbers), in big-endian order; `none` for an element it cannot size. -/
def encodeScalar : Value → Option (List Nat)
  | .uint8 v => some [toByte v]
  | .uint16 v => some (putUint16 (v % 2 ^ 16))
  | .uint32 v => some (putUint32 (v % 2 ^ 32))
  | .uint64 v => some (putUint64 (v % 2 ^ 64))
  | .int8 v => some [toByte (toUint 8 v)]
  | .int16 v => some (putUint16 (toUint 16 v))
  | .int32 v => some (putUint32 (toUint 32 v))
  | .int64 v => some (putUint64 (toUint 64 v))
  | .bool b => some [if b then 1 else 0]
  | .float32 bits => some (putUint32 (bits % 2 ^ 32))
  | .float64 bits => some (putUint64 (bits % 2 ^ 64))
  | .complex64 re im => some (putUint32 (re % 2 ^ 32) ++ putUint32 (im % 2 ^ 32))
  | .complex128 re im => some (putUint64 (re % 2 ^ 64) ++ putUint64 (im % 2 ^ 64))
  | _ => none

/-- The call `binary.Write(buf, binary.BigEndian, v)`: the bytes it appends to
the buffer, the error it returns (nothing is appended then), or its panic. A
scalar is written in big-endian order; a slice, array, struct or pointee is
written leaf by leaf when every leaf is a scalar and is refused otherwise; a
value of a type without a fixed size is refused; the nil interface makes the
reflection code panic. (The texts of the error and of the panic vary with the
Go release; nothing below depends on them.) -/
def binaryWrite : Value → WriteOutcome
  | .uint8 v => .ok [toByte v]
  | .uint16 v => .ok (putUint16 (v % 2 ^ 16))
  | .uint32 v => .ok (putUint32 (v % 2 ^ 32))
  | .uint64 v => .ok (putUint64 (v % 2 ^ 64))
  | .int8 v => .ok [toByte (toUint 8 v)]
  | .int16 v => .ok (putUint16 (toUint 16 v))
  | .int32 v => .ok (putUint32 (toUint 32 v))
  | .int64 v => .ok (putUint64 (toUint 64 v))
  | .bool b => .ok [if b then 1 else 0]
  | .float32 bits => .ok (putUint32 (bits % 2 ^ 32))
  | .float64 bits => .ok (putUint64 (bits % 2 ^ 64))
  | .complex64 re im => .ok (putUint32 (re % 2 ^ 32) ++ putUint32 (im % 2 ^ 32))
  | .complex128 re im => .ok (putUint64 (re % 2 ^ 64) ++ putUint64 (im % 2 ^ 64))
  | .composite typeName leaves =>
    if leaves.all (fun l => (encodeScalar l).isSome) then
      .ok (leaves.map (fun l => (encodeScalar l).getD [])).flatten
    else
      .error ("binary.Write: invalid type " ++ typeName)
  | .unsized typeName => .error ("binary.Write: invalid type " ++ typeName)
  | .nil => .panic "reflect: call of reflect.Value.Type on zero Value"

/-- Why `Pack` did not return: `log.Fatal` ended the process after printing
`line`, or a panic inside `binary.Write` unwound through `Pack`. -/
inductive Abort where
  | fatal (line : String)
  | panic (msg : String)
  deriving Repr, DecidableEq

/-- The loop of `Pack`: `buf` is the `bytes.Buffer` filled so far. A failing
`binary.Write` reaches `log.Fatal`, which ends the process: the result is
`Except.error` and no byte sequence is returned; so it is when `binary.Write`
panics. -/
def packLoop (buf : List Nat) : List Value → Except Abort (List Nat)
  | [] => .ok buf
  | v :: rest =>
    match binaryWrite v with
    | .panic msg => .error (.panic msg)
    | .error err => .error (.fatal ("failed packing bytes:" ++ err))
    | .ok bs => packLoop (buf ++ bs) rest

/-- Function `Pack(data []interface{}) []byte` (and `pack` of `serial.go`). -/
def Pack (data : List Value) : Except Abort (List Nat) :=
  packLoop [] data

/-! ## What the specification says about `Pack` -/

/-- Holds for the eight fixed-width integer types. -/
def Value.isFixedInt : Value → Bool
  | .uint8 _ | .uint16 _ | .uint32 _ | .uint64 _ => true
  | .int8 _ | .int16 _ | .int32 _ | .int64 _ => true
  | _ => false

/-- Byte width of a fixed-width integer type (0 for the other values). -/
def Value.width : Value → Nat
  | .uint8 _ | .int8 _ => 1
  | .uint16 _ | .int16 _ => 2
  | .uint32 _ | .int32 _ => 4
  | .uint64 _ | .int64 _ => 8
  | _ => 0

/-- The integer a fixed-width integer value denotes (0 for the other values). -/
def Value.toInt : Value → Int
  | .uint8 v | .uint16 v | .uint32 v | .uint64 v => (v : Int)
  | .int8 v | .int16 v | .int32 v | .int64 v => v
  | _ => 0

/-- Big-endian encoding of `n` on `w` bytes as the specification words it: byte
`i` (counted from the front) is digit `w - 1 - i` of `n` in base 256, so that
the most significant byte comes first. -/
def bigEndian (w : Nat) (n : Nat) : List Nat :=
  (List.range w).map (fun i => n / 256 ^ (w - 1 - i) % 256)

/-- The specification's encoding of one fixed-width integer value `v` of width
`w` bytes: the big-endian encoding of `v mod 2^(8w)`. -/
def specEncode (v : Value) : List Nat :=
  bigEndian v.width (v.toInt % (2 ^ (8 * v.width) : Int)).toNat

/-- Value of a byte sequence read most significant byte first. -/
def fromBigEndian (bs : List Nat) : Nat :=
  bs.foldl (fun acc b => acc * 256 + b) 0

/-! ## Formatting done by `fmt` -/

/-- Verb `%d` (and `%v`) on an unsigned integer: its decimal digits. -/
def fmtD (n : Nat) : String := toString n

/-- Verb `%v` on a `[]byte`: the decimal values between brackets, one blank
apart. -/
def fmtBytesV (p : List Nat) : String :=
  "[" ++ " ".intercalate (p.map fmtD) ++ "]"

/-- Verb `% d` on a `[]byte`: as `%v`, the blank flag putting one more blank in
front of every (non-negative) element. -/
def fmtBytesSpaceD (p : List Nat) : String :=
  "[" ++ " ".intercalate (p.map (fun b => " " ++ fmtD b)) ++ "]"

/-! ## The serial handle -/

/-- The fields of `serial.Config` that `Open` sets. -/
structure Config where
  Name : String
  Baud : Int
  deriving Repr, DecidableEq

/-- Conversion `int(baud)` of a `uint` (64-bit words). -/
def intOfUint (b : Nat) : Int :=
  if b % 2 ^ 64 < 2 ^ 63 then ((b % 2 ^ 64 : Nat) : Int) else ((b % 2 ^ 64 : Nat) : Int) - 2 ^ 64

/-- What a transport `Write` call reports: `(n int, err error)`. -/
structure WriteResult where
  n : Int
  err : Option GoError
  deriving Repr, DecidableEq

/-- What a transport `Read` call leaves behind: the caller's buffer after the
call and the reported `(n int, err error)`. -/
structure ReadResult where
  buf : List Nat
  n : Int
  err : Option GoError
  deriving Repr, DecidableEq

/-- Behaviour of the `io.ReadWriter` stored in `Roomba.S`, over stream states
`σ`: each call answers from the current state and moves to the next one. -/
structure Transport (σ : Type) where
  Write : σ → List Nat → WriteResult × σ
  Read : σ → List Nat → ReadResult × σ

/-- The struct `Roomba`: the port name and the stream, `none` until `Open` has
succeeded. (`StreamPaused` is never read nor written by the code.) -/
structure Roomba (σ : Type) where
  PortName : String
  S : Option σ

/-- An effect issued by a method, in program order. -/
inductive Event where
  | log (msg : String)
  | openPort (c : Config)
  | write (p : List Nat)
  | read (p : List Nat)
  deriving Repr, DecidableEq

/-- How a call ends: it returns a value, or it faults on the nil stream. -/
inductive Ret (α : Type) where
  | returned (a : α)
  | nilFault
  deriving Repr, DecidableEq

/-- Result of running a method. -/
structure Outcome (σ α : Type) where
  ret : Ret α
  handle : Roomba σ
  trace : List Event

/-- Number of transport `Write` calls in a trace. -/
def writeCount (t : List Event) : Nat :=
  t.countP (fun e => match e with | .write _ => true | _ => false)

/-- Keeps the transport `Write` calls of a trace. -/
def writesOf (t : List Event) : List Event :=
  t.filter (fun e => match e with | .write _ => true | _ => false)

/-- Number of transport `Read` calls in a trace. -/
def readCount (t : List Event) : Nat :=
  t.countP (fun e => match e with | .read _ => true | _ => false)

/-- Number of `serial.OpenPort` calls in a trace. -/
def openCount (t : List Event) : Nat :=
  t.countP (fun e => match e with | .openPort _ => true | _ => false)

/-- The error `Open` builds for a rejected baud rate. -/
def invalidBaudError (baud : Nat) : GoError :=
  "invalid baud rate: " ++ fmtD baud ++ ". Must be one of 115200, 19200"

/-- The error `Write` builds when the opcode write fails. -/
def opcodeError (opcode : Nat) : GoError :=
  "failed writing opcode " ++ fmtD opcode ++ " to serial interface"

/-- The error `Write` builds when the payload write fails. -/
def commandError (p : List Nat) : GoError :=
  "failed writing command to serial interface: " ++ fmtBytesSpaceD p

/-- Method `func (this *Roomba) Open(baud uint) error`; `openPort` is
`serial.OpenPort`. -/
def Roomba.Open {σ : Type} (openPort : Config → Except GoError σ) (this : Roomba σ) (baud : Nat) :
    Outcome σ (Option GoError) :=
  if baud ≠ 115200 ∧ baud ≠ 19200 then
    ⟨.returned (some (invalidBaudError baud)), this, []⟩
  else
    let c : Config := { Name := this.PortName, Baud := intOfUint baud }
    match openPort c with
    | .error err =>
      ⟨.returned (some err), this,
        [.openPort c, .log ("failed to open serial port: " ++ this.PortName)]⟩
    | .ok port =>
      ⟨.returned none, { this with S := some port },
        [.openPort c, .log ("opened serial port: " ++ this.PortName)]⟩

/-- Method `func (this *Roomba) Write(opcode byte, p []byte) error`. The log line
comes first; a nil stream faults at the first transport call. -/
def Roomba.Write {σ : Type} (T : Transport σ) (this : Roomba σ) (opcode : Nat) (p : List Nat) :
    Outcome σ (Option GoError) :=
  let l := Event.log ("Writing opcode: " ++ fmtD opcode ++ ", data " ++ fmtBytesV p)
  match this.S with
  | none => ⟨.nilFault, this, [l]⟩
  | some s =>
    let r1 := T.Write s [opcode]
    if r1.1.n ≠ 1 ∨ r1.1.err ≠ none then
      ⟨.returned (some (opcodeError opcode)), { this with S := some r1.2 },
        [l, .write [opcode]]⟩
    else
      let r2 := T.Write r1.2 p
      if r2.1.n ≠ (p.length : Int) ∨ r2.1.err ≠ none then
        ⟨.returned (some (commandError p)), { this with S := some r2.2 },
          [l, .write [opcode], .write p]⟩
      else
        ⟨.returned none, { this with S := some r2.2 }, [l, .write [opcode], .write p]⟩

/-- Method `func (this *Roomba) WriteByte(opcode byte) error`. -/
def Roomba.WriteByte {σ : Type} (T : Transport σ) (this : Roomba σ) (opcode : Nat) :
    Outcome σ (Option GoError) :=
  Roomba.Write T this opcode []

/-- Method `func (this *Roomba) Read(p []byte) (n int, err error)`. -/
def Roomba.Read {σ : Type} (T : Transport σ) (this : Roomba σ) (p : List Nat) :
    Outcome σ ReadResult :=
  match this.S with
  | none => ⟨.nilFault, this, []⟩
  | some s =>
    let r := T.Read s p
    ⟨.returned r.1, { this with S := some r.2 }, [.read p]⟩

/-! ## Transports used in the scenarios of the specification -/

/-- A transport that accepts every write in full and gives the written bytes
back on read, in order (an in-memory buffer): the state is the bytes written
and not yet read. A read into an empty buffer returns `(0, nil)`; a read with
nothing pending returns `(0, EOF)`. -/
def echoTransport : Transport (List Nat) where
  Write := fun s p => (⟨(p.length : Int), none⟩, s ++ p)
  Read := fun s p =>
    if p.length = 0 then (⟨p, 0, none⟩, s)
    else if s.length = 0 then (⟨p, 0, some "EOF"⟩, s)
    else
      let n := min p.length s.length
      (⟨s.take n ++ p.drop n, (n : Int), none⟩, s.drop n)

/-- A transport whose writes report the scripted results in turn (and
`(0, nil)` once the script is used up) and whose reads report `(0, EOF)`. -/
def scriptedTransport : Transport (List WriteResult) where
  Write := fun s _ =>
    match s with
    | [] => (⟨0, none⟩, [])
    | r :: rest => (r, rest)
  Read := fun s p => (⟨p, 0, some "EOF"⟩, s)

/-! ## Lemmas on the big-endian encoding -/

theorem bigEndian_succ (w n : Nat) :
    bigEndian (w + 1) n = (n / 256 ^ w % 256) :: bigEndian w n := by
  unfold bigEndian
  rw [List.range_succ_eq_map]
  simp only [List.map_cons, List.map_map, Function.comp_def, Nat.add_sub_cancel, Nat.sub_zero]
  congr 1
  apply List.map_congr_left
  intro i _
  rw [Nat.sub_sub, Nat.add_comm 1 i]

theorem bigEndian_length (w n : Nat) : (bigEndian w n).length = w := by
  simp [bigEndian]

theorem bigEndian_lt (w n : Nat) : ∀ b ∈ bigEndian w n, b < 256 := by
  intro b hb
  simp only [bigEndian, List.mem_map] at hb
  obtain ⟨i, _, rfl⟩ := hb
  exact Nat.mod_lt _ (by decide)

theorem foldl_bigEndian_acc (bs : List Nat) (acc : Nat) :
    bs.foldl (fun a b => a * 256 + b) acc
      = acc * 256 ^ bs.length + bs.foldl (fun a b => a * 256 + b) 0 := by
  induction bs generalizing acc with
  | nil => simp
  | cons b bs ih =>
    simp only [List.foldl_cons, List.length_cons]
    rw [ih (acc * 256 + b), ih (0 * 256 + b)]
    ring

theorem fromBigEndian_bigEndian (w n : Nat) :
    fromBigEndian (bigEndian w n) = n % 256 ^ w := by
  induction w with
  | zero => simp [bigEndian, fromBigEndian, Nat.mod_one]
  | succ w ih =>
    rw [bigEndian_succ]
    unfold fromBigEndian at ih ⊢
    rw [List.foldl_cons, foldl_bigEndian_acc, ih, bigEndian_length, Nat.mod_pow_succ]
    ring

theorem putUint16_eq (x : Nat) : putUint16 x = bigEndian 2 x := by
  simp [putUint16, bigEndian, toByte, List.range_succ, Nat.shiftRight_eq_div_pow]

theorem putUint32_eq (x : Nat) : putUint32 x = bigEndian 4 x := by
  simp [putUint32, bigEndian, toByte, List.range_succ, Nat.shiftRight_eq_div_pow]

theorem putUint64_eq (x : Nat) : putUint64 x = bigEndian 8 x := by
  simp [putUint64, bigEndian, toByte, List.range_succ, Nat.shiftRight_eq_div_pow]

theorem toNat_cast_emod (v m : Nat) : (((v : Int) % (m : Int))).toNat = v % m := by
  rw [← Int.natCast_mod, Int.toNat_natCast]

theorem binaryWrite_fixedInt (v : Value) (h : v.isFixedInt = true) :
    binaryWrite v = .ok (specEncode v) := by
  cases v <;> simp [Value.isFixedInt] at h
  case uint8 v =>
    have : ((v : Int) % (2 ^ (8 * 1) : Int)).toNat = v % 2 ^ 8 := by
      exact_mod_cast toNat_cast_emod v (2 ^ 8)
    simp only [binaryWrite, specEncode, Value.width, Value.toInt, this]
    simp [toByte, bigEndian]
  case uint16 v =>
    have : ((v : Int) % (2 ^ 16 : Int)).toNat = v % 2 ^ 16 := by exact_mod_cast toNat_cast_emod v (2 ^ 16)
    simp only [binaryWrite, specEncode, Value.width, Value.toInt, putUint16_eq, Nat.reduceMul, this]
  case uint32 v =>
    have : ((v : Int) % (2 ^ 32 : Int)).toNat = v % 2 ^ 32 := by exact_mod_cast toNat_cast_emod v (2 ^ 32)
    simp only [binaryWrite, specEncode, Value.width, Value.toInt, putUint32_eq, Nat.reduceMul, this]
  case uint64 v =>
    have : ((v : Int) % (2 ^ 64 : Int)).toNat = v % 2 ^ 64 := by exact_mod_cast toNat_cast_emod v (2 ^ 64)
    simp only [binaryWrite, specEncode, Value.width, Value.toInt, putUint64_eq, Nat.reduceMul, this]
  case int8 v =>
    simp [binaryWrite, specEncode, Value.width, Value.toInt, toByte, toUint, bigEndian]
  case int16 v =>
    simp only [binaryWrite, specEncode, Value.width, Value.toInt, putUint16_eq, toUint, Nat.reduceMul]
  case int32 v =>
    simp only [binaryWrite, specEncode, Value.width, Value.toInt, putUint32_eq, toUint, Nat.reduceMul]
  case int64 v =>
    simp only [binaryWrite, specEncode, Value.width, Value.toInt, putUint64_eq, toUint, Nat.reduceMul]

theorem specEncode_length (v : Value) : (specEncode v).length = v.width := by
  simp [specEncode, bigEndian_length]

theorem packLoop_fixedInt (data : List Value) (buf : List Nat)
    (h : ∀ v ∈ data, v.isFixedInt = true) :
    packLoop buf data = .ok (buf ++ (data.map specEncode).flatten) := by
  induction data generalizing buf with
  | nil => simp [packLoop]
  | cons v rest ih =>
    have hv := binaryWrite_fixedInt v (h v (List.mem_cons_self _ _))
    simp only [packLoop, hv]
    rw [ih _ (fun w hw => h w (List.mem_cons_of_mem _ hw))]
    simp

theorem specEncode_value (v : Value) :
    fromBigEndian (specEncode v) = (v.toInt % (2 ^ (8 * v.width) : Int)).toNat := by
  unfold specEncode
  rw [fromBigEndian_bigEndian]
  apply Nat.mod_eq_of_lt
  have hpos : (0 : Int) < 2 ^ (8 * v.width) := by positivity
  have h1 := Int.emod_lt_of_pos v.toInt hpos
  have h0 := Int.emod_nonneg v.toInt (ne_of_gt hpos)
  have hpow : (256 : Nat) ^ v.width = 2 ^ (8 * v.width) := by
    rw [pow_mul]; norm_num
  rw [hpow]
  zify
  rw [Int.toNat_of_nonneg h0]
  exact_mod_cast h1

/-! ## Theorems on `Pack` -/

/-- C1: on a list of fixed-width integer values `Pack` returns the
concatenation, in input order, of each value's big-endian encoding, a value `v`
of width `w` bytes being encoded as `v mod 2^(8w)`, most significant byte
first (each encoding has `w` bytes below 256 that read back, most significant
first, as `v mod 2^(8w)`); the output length is the sum of the byte widths;
`Pack([uint8(0x02)]) = [0x02]` and `Pack([uint16(0x0102)]) = [0x01, 0x02]`. -/
theorem Pack_fixed_width_big_endian (data : List Value)
    (h : ∀ v ∈ data, v.isFixedInt = true) :
    Pack data = .ok (data.map specEncode).flatten
    ∧ (∀ out, Pack data = .ok out → out.length = (data.map Value.width).sum)
    ∧ (∀ v ∈ data, (specEncode v).length = v.width
        ∧ (∀ b ∈ specEncode v, b < 256)
        ∧ fromBigEndian (specEncode v) = (v.toInt % (2 ^ (8 * v.width) : Int)).toNat)
    ∧ Pack [Value.uint8 0x02] = .ok [0x02]
    ∧ Pack [Value.uint16 0x0102] = .ok [0x01, 0x02] := by
  have hp : Pack data = .ok (data.map specEncode).flatten := by
    unfold Pack
    rw [packLoop_fixedInt data [] h]
    simp
  refine ⟨hp, ?_, ?_, rfl, rfl⟩
  · intro out hout
    rw [hp] at hout
    cases hout
    rw [List.length_flatten, List.map_map]
    congr 1
    apply List.map_congr_left
    intro v _
    exact specEncode_length v
  · intro v _
    exact ⟨specEncode_length v, bigEndian_lt _ _, specEncode_value v⟩

/-- Witness of C1 on `[int16(-2), uint32(0x01020304), uint8(255)]`. -/
theorem Pack_fixed_width_big_endian_witness :
    (∀ v ∈ [Value.int16 (-2), Value.uint32 0x01020304, Value.uint8 255],
        v.isFixedInt = true)
    ∧ Pack [Value.int16 (-2), Value.uint32 0x01020304, Value.uint8 255]
        = .ok [0xff, 0xfe, 0x01, 0x02, 0x03, 0x04, 0xff] :=
  ⟨by decide,
   (Pack_fixed_width_big_endian
      [Value.int16 (-2), Value.uint32 0x01020304, Value.uint8 255] (by decide)).1.trans
      (congrArg Except.ok (by decide))⟩

theorem opcodeError_data (opcode : Nat) :
    (opcodeError opcode).data.take 16 = "failed writing o".data := by
  simp only [opcodeError, String.data_append]
  rfl

theorem commandError_data (p : List Nat) :
    (commandError p).data.take 16 = "failed writing c".data := by
  simp only [commandError, String.data_append]
  rfl

theorem commandError_ne_opcodeError (p : List Nat) (opcode : Nat) :
    commandError p ≠ opcodeError opcode := by
  intro h
  have h1 := commandError_data p
  rw [h, opcodeError_data] at h1
  exact absurd h1 (by decide)

/-! ## Theorems on `Write`, `WriteByte` and `Read` -/

/-- C3: when the transport accepts 0 bytes on the opcode write, `Write` returns
the opcode write error, whose message contains the decimal digits of the
opcode. -/
theorem Write_opcode_zero_bytes {σ : Type} (T : Transport σ) (name : String) (s : σ)
    (opcode : Nat) (p : List Nat) (h : (T.Write s [opcode]).1.n = 0) :
    (Roomba.Write T ⟨name, some s⟩ opcode p).ret = .returned (some (opcodeError opcode))
    ∧ opcodeError opcode
        = "failed writing opcode " ++ (Nat.toDigits 10 opcode).asString
            ++ " to serial interface" := by
  refine ⟨?_, rfl⟩
  simp [Roomba.Write, h]

/-- Witness of C3: a transport whose first write reports `(0, nil)`. -/
theorem Write_opcode_zero_bytes_witness :
    (scriptedTransport.Write [⟨0, none⟩] [128]).1.n = 0
    ∧ (Roomba.Write scriptedTransport ⟨"/dev/ttyUSB0", some [⟨0, none⟩]⟩ 128 [1, 2]).ret
        = .returned (some "failed writing opcode 128 to serial interface") :=
  ⟨rfl,
   (Write_opcode_zero_bytes scriptedTransport "/dev/ttyUSB0" [⟨0, none⟩] 128 [1, 2] rfl).1.trans
     (by decide)⟩

/-- C4: when the transport reports `(1, nil)` on the opcode write and fewer than
`len(p)` bytes on the payload write, `Write` returns the payload write error;
its message ends with the decimal values of the payload bytes, in order, and it
differs from the opcode write error of every opcode. -/
theorem Write_payload_short {σ : Type} (T : Transport σ) (name : String) (s : σ)
    (opcode : Nat) (p : List Nat)
    (h1 : (T.Write s [opcode]).1 = ⟨1, none⟩)
    (h2 : (T.Write (T.Write s [opcode]).2 p).1.n < (p.length : Int)) :
    (Roomba.Write T ⟨name, some s⟩ opcode p).ret = .returned (some (commandError p))
    ∧ commandError p
        = "failed writing command to serial interface: ["
            ++ " ".intercalate (p.map (fun b => " " ++ (Nat.toDigits 10 b).asString)) ++ "]"
    ∧ ∀ opcode', commandError p ≠ opcodeError opcode' := by
  refine ⟨?_, ?_, commandError_ne_opcodeError p⟩
  · have hne : (T.Write (T.Write s [opcode]).2 p).1.n ≠ (p.length : Int) := ne_of_lt h2
    simp [Roomba.Write, h1, hne]
  · simp only [commandError, fmtBytesSpaceD, fmtD, String.append_assoc]
    rfl

/-- Witness of C4: the opcode write reports `(1, nil)`, the write of a 3-byte
payload reports `(2, nil)`. -/
theorem Write_payload_short_witness :
    (scriptedTransport.Write [⟨1, none⟩, ⟨2, none⟩] [137]).1 = ⟨1, none⟩
    ∧ (scriptedTransport.Write (scriptedTransport.Write [⟨1, none⟩, ⟨2, none⟩] [137]).2
          [0, 200, 128]).1.n < (([0, 200, 128] : List Nat).length : Int)
    ∧ (Roomba.Write scriptedTransport ⟨"/dev/ttyUSB0", some [⟨1, none⟩, ⟨2, none⟩]⟩ 137
          [0, 200, 128]).ret
        = .returned (some "failed writing command to serial interface: [ 0  200  128]") :=
  ⟨rfl, by decide,
   (Write_payload_short scriptedTransport "/dev/ttyUSB0" [⟨1, none⟩, ⟨2, none⟩] 137
      [0, 200, 128] rfl (by decide)).1.trans (by decide)⟩

/-- C5 as stated fails: with an empty payload and a transport that accepts the
opcode, `Write` issues two transport writes (the second of zero bytes), not
one; with a non-empty payload and a failing opcode write it issues one, not
two. -/
theorem Write_count_counterexample :
    writeCount (Roomba.Write echoTransport ⟨"/dev/ttyUSB0", some []⟩ 128 []).trace = 2
    ∧ (Roomba.Write echoTransport ⟨"/dev/ttyUSB0", some []⟩ 128 []).trace
        = [.log "Writing opcode: 128, data []", .write [128], .write []]
    ∧ writeCount
        (Roomba.Write scriptedTransport ⟨"/dev/ttyUSB0", some [⟨0, none⟩]⟩ 137 [0, 200]).trace = 1
    ∧ ¬ (∀ (T : Transport (List Nat)) (s : List Nat) (opcode : Nat) (p : List Nat),
          (p ≠ [] → writeCount (Roomba.Write T ⟨"/dev/ttyUSB0", some s⟩ opcode p).trace = 2)
          ∧ (p = [] → writeCount (Roomba.Write T ⟨"/dev/ttyUSB0", some s⟩ opcode p).trace = 1)) := by
  refine ⟨by decide, by decide, by decide, ?_⟩
  intro hall
  have h := (hall echoTransport [] 128 []).2 rfl
  exact absurd h (by decide)

/-- C5, amended: `Write` issues exactly two transport writes, the single opcode
byte and then the payload (also when the payload is empty), whenever the
opcode write reports 1 byte and no error; otherwise it issues exactly one, the
opcode byte. -/
theorem Write_transport_writes {σ : Type} (T : Transport σ) (name : String) (s : σ)
    (opcode : Nat) (p : List Nat) :
    ((T.Write s [opcode]).1.n = 1 ∧ (T.Write s [opcode]).1.err = none →
        writesOf (Roomba.Write T ⟨name, some s⟩ opcode p).trace = [.write [opcode], .write p]
        ∧ writeCount (Roomba.Write T ⟨name, some s⟩ opcode p).trace = 2)
    ∧ (¬ ((T.Write s [opcode]).1.n = 1 ∧ (T.Write s [opcode]).1.err = none) →
        writesOf (Roomba.Write T ⟨name, some s⟩ opcode p).trace = [.write [opcode]]
        ∧ writeCount (Roomba.Write T ⟨name, some s⟩ opcode p).trace = 1) := by
  constructor
  · rintro ⟨hn, he⟩
    by_cases h2 : (T.Write (T.Write s [opcode]).2 p).1.n ≠ (p.length : Int)
        ∨ (T.Write (T.Write s [opcode]).2 p).1.err ≠ none
    · simp [Roomba.Write, hn, he, h2, writesOf, writeCount]
    · simp [Roomba.Write, hn, he, h2, writesOf, writeCount]
  · intro h
    have h1 : (T.Write s [opcode]).1.n ≠ 1 ∨ (T.Write s [opcode]).1.err ≠ none := by
      by_contra hc
      push_neg at hc
      exact h hc
    simp [Roomba.Write, h1, writesOf, writeCount]

/-- Witness of C5, amended: an accepting transport with an empty payload, and a
transport refusing the opcode with a non-empty payload. -/
theorem Write_transport_writes_witness :
    ((echoTransport.Write [] [128]).1.n = 1 ∧ (echoTransport.Write [] [128]).1.err = none)
    ∧ writesOf (Roomba.Write echoTransport ⟨"/dev/ttyUSB0", some []⟩ 128 []).trace
        = [.write [128], .write []]
    ∧ ¬ ((scriptedTransport.Write [⟨0, none⟩] [137]).1.n = 1
          ∧ (scriptedTransport.Write [⟨0, none⟩] [137]).1.err = none)
    ∧ writesOf (Roomba.Write scriptedTransport ⟨"/dev/ttyUSB0", some [⟨0, none⟩]⟩ 137 [0, 200]).trace
        = [.write [137]] :=
  ⟨by decide,
   ((Write_transport_writes echoTransport "/dev/ttyUSB0" [] 128 []).1 (by decide)).1,
   by decide,
   ((Write_transport_writes scriptedTransport "/dev/ttyUSB0" [⟨0, none⟩] 137 [0, 200]).2
      (by decide)).1⟩

/-- C10: `Write` returns success exactly when the opcode write reports 1 byte
and no error and the payload write reports `len(p)` bytes and no error;
otherwise it returns an error, in particular when a count is over-reported;
and when the opcode write fails the only transport write issued is the opcode
byte, the stream being left as that write left it. -/
theorem Write_success_iff {σ : Type} (T : Transport σ) (name : String) (s : σ)
    (opcode : Nat) (p : List Nat) :
    ((Roomba.Write T ⟨name, some s⟩ opcode p).ret = .returned none ↔
        ((T.Write s [opcode]).1.n = 1 ∧ (T.Write s [opcode]).1.err = none
          ∧ (T.Write (T.Write s [opcode]).2 p).1.n = (p.length : Int)
          ∧ (T.Write (T.Write s [opcode]).2 p).1.err = none))
    ∧ ((Roomba.Write T ⟨name, some s⟩ opcode p).ret ≠ .returned none →
        ∃ err, (Roomba.Write T ⟨name, some s⟩ opcode p).ret = .returned (some err))
    ∧ (1 < (T.Write s [opcode]).1.n →
        (Roomba.Write T ⟨name, some s⟩ opcode p).ret = .returned (some (opcodeError opcode)))
    ∧ ((T.Write s [opcode]).1 = ⟨1, none⟩
          ∧ (p.length : Int) < (T.Write (T.Write s [opcode]).2 p).1.n →
        (Roomba.Write T ⟨name, some s⟩ opcode p).ret = .returned (some (commandError p)))
    ∧ (¬ ((T.Write s [opcode]).1.n = 1 ∧ (T.Write s [opcode]).1.err = none) →
        (Roomba.Write T ⟨name, some s⟩ opcode p).ret = .returned (some (opcodeError opcode))
        ∧ writesOf (Roomba.Write T ⟨name, some s⟩ opcode p).trace = [.write [opcode]]
        ∧ (Roomba.Write T ⟨name, some s⟩ opcode p).handle.S = some (T.Write s [opcode]).2) := by
  by_cases h1 : (T.Write s [opcode]).1.n ≠ 1 ∨ (T.Write s [opcode]).1.err ≠ none
  · have hw : Roomba.Write T ⟨name, some s⟩ opcode p
        = ⟨.returned (some (opcodeError opcode)), ⟨name, some (T.Write s [opcode]).2⟩,
            [.log ("Writing opcode: " ++ fmtD opcode ++ ", data " ++ fmtBytesV p),
             .write [opcode]]⟩ := by
      simp [Roomba.Write, h1]
    rw [hw]
    refine ⟨?_, ?_, ?_, ?_, ?_⟩
    · constructor
      · intro h; cases h
      · rintro ⟨hn, he, -⟩
        rcases h1 with h | h
        · exact absurd hn h
        · exact absurd he h
    · intro _; exact ⟨_, rfl⟩
    · intro _; rfl
    · rintro ⟨h, -⟩
      rw [h] at h1
      simp at h1
    · intro _
      exact ⟨rfl, by simp [writesOf], rfl⟩
  · push_neg at h1
    obtain ⟨hn, he⟩ := h1
    by_cases h2 : (T.Write (T.Write s [opcode]).2 p).1.n ≠ (p.length : Int)
        ∨ (T.Write (T.Write s [opcode]).2 p).1.err ≠ none
    · have hw : (Roomba.Write T ⟨name, some s⟩ opcode p).ret
          = .returned (some (commandError p)) := by
        simp [Roomba.Write, hn, he, h2]
      rw [hw]
      refine ⟨?_, ?_, ?_, ?_, ?_⟩
      · constructor
        · intro h; cases h
        · rintro ⟨-, -, hn2, he2⟩
          rcases h2 with h | h
          · exact absurd hn2 h
          · exact absurd he2 h
      · intro _; exact ⟨_, rfl⟩
      · intro h; rw [hn] at h; exact absurd h (by decide)
      · intro _; rfl
      · intro h; exact absurd ⟨hn, he⟩ h
    · have hw : (Roomba.Write T ⟨name, some s⟩ opcode p).ret = .returned none := by
        simp [Roomba.Write, hn, he, h2]
      rw [hw]
      push_neg at h2
      refine ⟨?_, ?_, ?_, ?_, ?_⟩
      · exact ⟨fun _ => ⟨hn, he, h2.1, h2.2⟩, fun _ => rfl⟩
      · intro h; exact absurd rfl h
      · intro h; rw [hn] at h; exact absurd h (by decide)
      · rintro ⟨-, h⟩; rw [h2.1] at h; exact absurd h (lt_irrefl _)
      · intro h; exact absurd ⟨hn, he⟩ h

/-- Witness of C10: a transport over-reporting 2 bytes on the opcode write, one
over-reporting 5 bytes on the write of a 2-byte payload, and one refusing the
opcode. -/
theorem Write_success_iff_witness :
    (1 < (scriptedTransport.Write [⟨2, none⟩] [137]).1.n
      ∧ (Roomba.Write scriptedTransport ⟨"/dev/ttyUSB0", some [⟨2, none⟩]⟩ 137 [0, 200]).ret
          = .returned (some "failed writing opcode 137 to serial interface"))
    ∧ (((scriptedTransport.Write [⟨1, none⟩, ⟨5, none⟩] [137]).1 = ⟨1, none⟩
        ∧ (([0, 200] : List Nat).length : Int)
            < (scriptedTransport.Write
                (scriptedTransport.Write [⟨1, none⟩, ⟨5, none⟩] [137]).2 [0, 200]).1.n)
      ∧ (Roomba.Write scriptedTransport ⟨"/dev/ttyUSB0", some [⟨1, none⟩, ⟨5, none⟩]⟩ 137
            [0, 200]).ret
          = .returned (some "failed writing command to serial interface: [ 0  200]"))
    ∧ (¬ ((scriptedTransport.Write [⟨1, some "EIO"⟩] [137]).1.n = 1
          ∧ (scriptedTransport.Write [⟨1, some "EIO"⟩] [137]).1.err = none)
      ∧ writesOf
          (Roomba.Write scriptedTransport ⟨"/dev/ttyUSB0", some [⟨1, some "EIO"⟩]⟩ 137 [0, 200]).trace
          = [.write [137]])
    ∧ (Roomba.Write scriptedTransport ⟨"/dev/ttyUSB0", some [⟨1, none⟩, ⟨2, none⟩]⟩ 137
          [0, 200]).ret = .returned none :=
  ⟨⟨by decide,
    ((Write_success_iff scriptedTransport "/dev/ttyUSB0" [⟨2, none⟩] 137 [0, 200]).2.2.1
      (by decide)).trans (by decide)⟩,
   ⟨⟨rfl, by decide⟩,
    ((Write_success_iff scriptedTransport "/dev/ttyUSB0" [⟨1, none⟩, ⟨5, none⟩] 137
      [0, 200]).2.2.2.1 ⟨rfl, by decide⟩).trans (by decide)⟩,
   ⟨by decide,
    ((Write_success_iff scriptedTransport "/dev/ttyUSB0" [⟨1, some "EIO"⟩] 137
      [0, 200]).2.2.2.2 (by decide)).2.1⟩,
   (Write_success_iff scriptedTransport "/dev/ttyUSB0" [⟨1, none⟩, ⟨2, none⟩] 137
      [0, 200]).1.mpr (by decide)⟩

/-- C8: `WriteByte(opcode)` is `Write(opcode, empty payload)`: same returned
value (or fault), same handle afterwards, same trace of transport writes, for
every handle and transport. -/
theorem WriteByte_eq_Write_empty {σ : Type} (T : Transport σ) (this : Roomba σ)
    (opcode : Nat) :
    Roomba.WriteByte T this opcode = Roomba.Write T this opcode []
    ∧ (Roomba.WriteByte T this opcode).ret = (Roomba.Write T this opcode []).ret
    ∧ writesOf (Roomba.WriteByte T this opcode).trace = writesOf (Roomba.Write T this opcode []).trace :=
  ⟨rfl, rfl, rfl⟩

/-- C9: on an open handle `Read` returns the buffer, the byte count and the
error of the transport read on that buffer, unchanged, and issues exactly one
transport read (and nothing else), for every buffer and transport. -/
theorem Read_passthrough {σ : Type} (T : Transport σ) (name : String) (s : σ)
    (p : List Nat) :
    (Roomba.Read T ⟨name, some s⟩ p).ret = .returned (T.Read s p).1
    ∧ (Roomba.Read T ⟨name, some s⟩ p).trace = [.read p]
    ∧ readCount (Roomba.Read T ⟨name, some s⟩ p).trace = 1
    ∧ (Roomba.Read T ⟨name, some s⟩ p).handle.S = some (T.Read s p).2 :=
  ⟨rfl, rfl, rfl, rfl⟩

/-! ## Theorems on `Open` -/

/-- C2: `Open` returns the validation error without any `serial.OpenPort` call
exactly when the baud rate is neither 115200 nor 19200; for 115200 and 19200
its first effect is the `serial.OpenPort` call with the handle's port name and
that baud rate, made once, and it returns what that call decides. -/
theorem Open_validates_baud {σ : Type} (openPort : Config → Except GoError σ)
    (this : Roomba σ) (baud : Nat) :
    (((Roomba.Open openPort this baud).ret = .returned (some (invalidBaudError baud))
        ∧ openCount (Roomba.Open openPort this baud).trace = 0)
      ↔ (baud ≠ 115200 ∧ baud ≠ 19200))
    ∧ (baud ≠ 115200 ∧ baud ≠ 19200 →
        (Roomba.Open openPort this baud).trace = []
        ∧ (Roomba.Open openPort this baud).handle.S = this.S)
    ∧ (baud = 115200 ∨ baud = 19200 →
        (Roomba.Open openPort this baud).trace.head?
            = some (.openPort ⟨this.PortName, (baud : Int)⟩)
        ∧ openCount (Roomba.Open openPort this baud).trace = 1
        ∧ (Roomba.Open openPort this baud).ret
            = .returned (match openPort ⟨this.PortName, (baud : Int)⟩ with
                | .error err => some err
                | .ok _ => none)) := by
  by_cases hb : baud ≠ 115200 ∧ baud ≠ 19200
  · have hw : Roomba.Open openPort this baud
        = ⟨.returned (some (invalidBaudError baud)), this, []⟩ := by
      simp [Roomba.Open, hb]
    rw [hw]
    refine ⟨⟨fun _ => hb, fun _ => ⟨rfl, rfl⟩⟩, fun _ => ⟨rfl, rfl⟩, ?_⟩
    rintro (h | h)
    · exact absurd h hb.1
    · exact absurd h hb.2
  · have hor : baud = 115200 ∨ baud = 19200 := by
      by_contra hc
      push_neg at hc
      exact hb hc
    have hi : intOfUint baud = (baud : Int) := by
      rcases hor with rfl | rfl <;> decide
    refine ⟨⟨?_, fun h => absurd h hb⟩, fun h => absurd h hb, fun _ => ?_⟩
    · rintro ⟨-, hc⟩
      exfalso
      revert hc
      unfold Roomba.Open
      rw [if_neg hb]
      dsimp only
      split <;> simp [openCount]
    · unfold Roomba.Open
      rw [if_neg hb]
      simp only [hi]
      split <;> simp_all [openCount]

/-- Witness of C2 at 19200 (accepted; the port then fails to open) and at 9600
(rejected). -/
theorem Open_validates_baud_witness :
    ((19200 : Nat) = 115200 ∨ (19200 : Nat) = 19200)
    ∧ (Roomba.Open (fun _ => (Except.error "no such device" : Except GoError Unit))
          ⟨"/dev/ttyUSB0", none⟩ 19200).trace.head?
        = some (.openPort ⟨"/dev/ttyUSB0", 19200⟩)
    ∧ ((9600 : Nat) ≠ 115200 ∧ (9600 : Nat) ≠ 19200)
    ∧ (Roomba.Open (fun _ => (Except.error "no such device" : Except GoError Unit))
          ⟨"/dev/ttyUSB0", none⟩ 9600).trace = []
    ∧ (Roomba.Open (fun _ => (Except.error "no such device" : Except GoError Unit))
          ⟨"/dev/ttyUSB0", none⟩ 9600).ret
        = .returned (some "invalid baud rate: 9600. Must be one of 115200, 19200") :=
  ⟨by decide,
   ((Open_validates_baud (fun _ => (Except.error "no such device" : Except GoError Unit))
      ⟨"/dev/ttyUSB0", none⟩ 19200).2.2 (by decide)).1,
   by decide,
   ((Open_validates_baud (fun _ => (Except.error "no such device" : Except GoError Unit))
      ⟨"/dev/ttyUSB0", none⟩ 9600).2.1 (by decide)).1,
   (((Open_validates_baud (fun _ => (Except.error "no such device" : Except GoError Unit))
      ⟨"/dev/ttyUSB0", none⟩ 9600).1.mpr (by decide)).1).trans (by decide)⟩

/-! ## The round trip through an echoing transport -/

/-- C6: for every opcode and every list of fixed-width integer arguments,
`Pack` returns a byte sequence, `Write(opcode, Pack(args))` on a fresh echoing
transport succeeds, and a following `Read` into a buffer long enough for the
frame (one byte more than the sum of the widths) reports `1 + len(Pack(args))`
bytes and no error, the buffer starting with exactly the opcode followed by
`Pack(args)`. -/
theorem Write_Pack_echo_roundtrip (name : String) (opcode : Nat) (args : List Value)
    (buf : List Nat) (h : ∀ v ∈ args, v.isFixedInt = true)
    (hlen : 1 + (args.map Value.width).sum ≤ buf.length) :
    ∃ packed, Pack args = .ok packed
      ∧ (Roomba.Write echoTransport ⟨name, some []⟩ opcode packed).ret = .returned none
      ∧ (Roomba.Read echoTransport (Roomba.Write echoTransport ⟨name, some []⟩ opcode packed).handle
            buf).ret
          = .returned ⟨(opcode :: packed) ++ buf.drop (1 + packed.length),
              ((1 + packed.length : Nat) : Int), none⟩
      ∧ ((opcode :: packed) ++ buf.drop (1 + packed.length)).take (1 + packed.length)
          = opcode :: packed := by
  have hsum : ((args.map specEncode).flatten).length = (args.map Value.width).sum := by
    rw [List.length_flatten, List.map_map]
    congr 1
    apply List.map_congr_left
    intro v _
    exact specEncode_length v
  rw [← hsum] at hlen
  refine ⟨(args.map specEncode).flatten, ?_, ?_⟩
  · unfold Pack
    rw [packLoop_fixedInt args [] h]
    simp
  · generalize (args.map specEncode).flatten = packed at hlen
    have hmin : min buf.length (packed.length + 1) = packed.length + 1 :=
      Nat.min_eq_right (by omega)
    have hminInt : min (buf.length : Int) ((packed.length : Int) + 1) = (packed.length : Int) + 1 :=
      min_eq_right (by omega)
    have hb0 : buf ≠ [] := by
      intro hnil
      rw [hnil] at hlen
      simp at hlen
    refine ⟨?_, ?_, ?_⟩
    · simp [Roomba.Write, echoTransport]
    · simp [Roomba.Write, Roomba.Read, echoTransport, hb0, hmin, hminInt, Nat.add_comm]
    · rw [List.take_append_eq_append_take]
      simp [Nat.add_comm]

/-- Witness of C6: opcode 137 with arguments `int16(-200)` and `int16(500)`, read
back into a buffer of 8 bytes. -/
theorem Write_Pack_echo_roundtrip_witness :
    (∀ v ∈ [Value.int16 (-200), Value.int16 500], v.isFixedInt = true)
    ∧ 1 + ([Value.int16 (-200), Value.int16 500].map Value.width).sum
        ≤ (List.replicate 8 0).length
    ∧ (∃ packed, Pack [Value.int16 (-200), Value.int16 500] = .ok packed
        ∧ (Roomba.Write echoTransport ⟨"/dev/ttyUSB0", some []⟩ 137 packed).ret = .returned none
        ∧ (Roomba.Read echoTransport
              (Roomba.Write echoTransport ⟨"/dev/ttyUSB0", some []⟩ 137 packed).handle
              (List.replicate 8 0)).ret
            = .returned ⟨(137 :: packed) ++ (List.replicate 8 0).drop (1 + packed.length),
                ((1 + packed.length : Nat) : Int), none⟩
        ∧ ((137 :: packed) ++ (List.replicate 8 0).drop (1 + packed.length)).take
              (1 + packed.length)
            = 137 :: packed)
    ∧ Pack [Value.int16 (-200), Value.int16 500] = .ok [0xff, 0x38, 0x01, 0xf4]
    ∧ (Roomba.Read echoTransport
          (Roomba.Write echoTransport ⟨"/dev/ttyUSB0", some []⟩ 137 [0xff, 0x38, 0x01, 0xf4]).handle
          (List.replicate 8 0)).ret
        = .returned ⟨[137, 0xff, 0x38, 0x01, 0xf4, 0, 0, 0], 5, none⟩ :=
  ⟨by decide, by decide,
   Write_Pack_echo_roundtrip "/dev/ttyUSB0" 137 [Value.int16 (-200), Value.int16 500]
     (List.replicate 8 0) (by decide) (by decide),
   rfl, by decide⟩

end roomba
